import Mathlib

/-!
Verification of the RBAC permission subsystem of the penguin-x backend.

The embedded code lives in `app/core/roles.py` (the `Role` enum and the
`RoleHierarchy` class) and `app/core/auth/permissions.py` (the request-time
gates `get_current_active_user` and `require_role`).  Python sets are
modelled as `Finset Role`; the `HIERARCHY` dict literal is modelled as an
association list so that `dict.get(key, default)` keeps its exact
lookup-with-default semantics; FastAPI's `HTTPException` raising is
modelled with `Except`.
-/

/-- The closed `Role` enum from `app/core/roles.py`. -/
inductive Role where
  | USER
  | ADMIN
  | INSTRUCTOR
  | STUDENT
  | FINANCE_VIEWER
  | FINANCE_MANAGER
  | MODERATOR
  | ANALYST
deriving DecidableEq, BEq, Fintype, Repr

namespace Role

/-- The `str` value of each enum member, exactly the tokens in the source. -/
def value : Role → String
  | USER => "user"
  | ADMIN => "admin"
  | INSTRUCTOR => "instructor"
  | STUDENT => "student"
  | FINANCE_VIEWER => "finance_viewer"
  | FINANCE_MANAGER => "finance_manager"
  | MODERATOR => "moderator"
  | ANALYST => "analyst"

/-- The members of the enum in declaration order (Python's iteration order). -/
def catalog : List Role :=
  [USER, ADMIN, INSTRUCTOR, STUDENT, FINANCE_VIEWER, FINANCE_MANAGER,
   MODERATOR, ANALYST]

/-- Python's `Role(s)` value lookup: the member whose `value` equals `s`,
if any (a miss raises `ValueError` in Python, modelled as `none`). -/
def ofValue (s : String) : Option Role :=
  catalog.find? (fun r => r.value == s)

end Role

/-- Python `dict.get(key, default)`: association-list lookup that falls back
to the default instead of raising. -/
def dictGet {α β : Type} [BEq α] (d : List (α × β)) (k : α) (default : β) : β :=
  (d.lookup k).getD default

namespace RoleHierarchy

open Role

/-- The `HIERARCHY` dict literal from `RoleHierarchy`, entry for entry. -/
def HIERARCHY : List (Role × Finset Role) :=
  [(USER, ∅),
   (STUDENT, {USER}),
   (INSTRUCTOR, {USER, STUDENT}),
   (FINANCE_VIEWER, {USER}),
   (FINANCE_MANAGER, {USER, FINANCE_VIEWER}),
   (MODERATOR, {USER}),
   (ANALYST, {USER}),
   (ADMIN, {USER, STUDENT, INSTRUCTOR, FINANCE_VIEWER, FINANCE_MANAGER,
            MODERATOR, ANALYST})]

/-- `RoleHierarchy.get_inherited_roles`: `cls.HIERARCHY.get(role, set())`. -/
def get_inherited_roles (role : Role) : Finset Role :=
  dictGet HIERARCHY role ∅

/-- `RoleHierarchy.has_permission`: equality short-circuit, then membership
in the directly declared inherited set. -/
def has_permission (user_role required_role : Role) : Bool :=
  if user_role = required_role then true
  else decide (required_role ∈ get_inherited_roles user_role)

/-- `RoleHierarchy.get_all_permissions`: `{role}` updated with the directly
inherited set (a one-level union in the source, not a closure). -/
def get_all_permissions (role : Role) : Finset Role :=
  insert role (get_inherited_roles role)

/-- One round of expansion: add every role directly inherited by a member. -/
def expandOnce (s : Finset Role) : Finset Role :=
  s ∪ s.biUnion get_inherited_roles

/-- `n`-fold expansion of a role set along the direct inheritance edges. -/
def expandN : Nat → Finset Role → Finset Role
  | 0, s => s
  | n + 1, s => expandN n (expandOnce s)

/-- The transitive closure of the directly declared inherited roles of `r`:
the fixpoint of repeated expansion (eight rounds suffice for the
eight-role catalog, and stability is proved below). -/
def closureFrom (r : Role) : Finset Role :=
  expandN 8 (get_inherited_roles r)

/-- Modelled from the spec: `all_permissions(role)` computed as
`{role} ∪ transitive-closure(inherited_roles)` by repeated expansion
until fixpoint, as §4.1 of the spec prescribes. -/
def all_permissions_spec (role : Role) : Finset Role :=
  insert role (closureFrom role)

end RoleHierarchy

/-- A resolved caller record: the fields of the `User` model that the
gates in `app/core/auth/permissions.py` read. -/
structure User where
  role : Role
  is_active : Bool
  is_superuser : Bool
deriving DecidableEq, Repr

/-- An `HTTPException(status_code, detail)` raised by a gate. -/
inductive GateError where
  | httpError (status_code : Nat) (detail : String)
deriving DecidableEq, Repr

/-- Python's `str.title()`: the first letter of every alphabetic run is
uppercased and the rest of the run lowercased. -/
def pyTitleAux : Bool → List Char → List Char
  | _, [] => []
  | prevAlpha, c :: cs =>
    if c.isAlpha then
      (if prevAlpha then c.toLower else c.toUpper) :: pyTitleAux true cs
    else
      c :: pyTitleAux false cs

/-- `s.title()` on a whole string. -/
def pyTitle (s : String) : String :=
  ⟨pyTitleAux false s.data⟩

/-- `get_current_active_user`: 400 `Inactive user` for an inactive caller,
otherwise the caller unchanged. -/
def get_current_active_user (current_user : User) : Except GateError User :=
  if !current_user.is_active then
    Except.error (GateError.httpError 400 "Inactive user")
  else
    Except.ok current_user

/-- The detail string of the 403 raised by a `require_role` gate:
`f"Access denied. \x7brequired_role.value.title()\x7d role required."`. -/
def insufficientRoleDetail (required_role : Role) : String :=
  "Access denied. " ++ pyTitle required_role.value ++ " role required."

/-- The `role_checker` closure produced by `require_role(required_role)`:
after the active-user dependency, deny with 403 unless
`has_permission(current_user.role, required_role)`. -/
def role_checker (required_role : Role) (current_user : User) :
    Except GateError User :=
  (get_current_active_user current_user).bind fun cu =>
    if !RoleHierarchy.has_permission cu.role required_role then
      Except.error (GateError.httpError 403 (insufficientRoleDetail required_role))
    else
      Except.ok cu

/-- `get_current_active_superuser`: active check, then the role-based admin
check (the legacy `is_superuser` branch is unreachable for a caller record
with a role assigned, which the non-nullable `role` column guarantees). -/
def get_current_active_superuser (current_user : User) : Except GateError User :=
  if !current_user.is_active then
    Except.error (GateError.httpError 400 "Inactive user")
  else if !RoleHierarchy.has_permission current_user.role Role.ADMIN then
    Except.error (GateError.httpError 403
      "Not enough permissions. Admin access required.")
  else
    Except.ok current_user

/-- The allow/deny outcome of a gate, forgetting the returned record. -/
def decision : Except GateError User → Option GateError
  | Except.ok _ => none
  | Except.error e => some e

/-- Claim C1: for every catalog role `r`, `get_all_permissions r` equals
`{r}` together with the transitive closure of the directly declared
inherited roles of `r`, i.e. the fixpoint of repeated expansion of
`get_inherited_roles` along the `HIERARCHY` edges starting from `r`. -/
theorem all_permissions_is_transitive_closure :
    ∀ r : Role,
      RoleHierarchy.get_all_permissions r = RoleHierarchy.all_permissions_spec r := by
  decide

/-- Claim C2: `has_permission` is transitive on the catalog. -/
theorem has_permission_trans :
    ∀ a b c : Role,
      RoleHierarchy.has_permission a b = true →
      RoleHierarchy.has_permission b c = true →
      RoleHierarchy.has_permission a c = true := by
  decide

/-- Witness for C2 at the chain INSTRUCTOR → STUDENT → USER. -/
theorem has_permission_trans_witness :
    RoleHierarchy.has_permission Role.INSTRUCTOR Role.USER = true :=
  has_permission_trans Role.INSTRUCTOR Role.STUDENT Role.USER
    (by decide) (by decide)

/-- Claim C4: `has_permission` is reflexive on the whole catalog, including
roles with an empty declared inherited set such as USER. -/
theorem has_permission_refl :
    ∀ r : Role, RoleHierarchy.has_permission r r = true := by
  decide

/-- Claim C5: ADMIN has permission for every catalog role, and
`get_all_permissions ADMIN` is the full eight-role catalog. -/
theorem admin_top_role :
    (∀ r : Role, RoleHierarchy.has_permission Role.ADMIN r = true) ∧
      RoleHierarchy.get_all_permissions Role.ADMIN = Finset.univ := by
  decide

/-- Claim C7: the declared inheritance graph is acyclic — no role is in the
transitive closure of its own inherited set — and the fixpoint expansion
stabilises (one more round of expansion changes nothing). -/
theorem hierarchy_acyclic :
    ∀ r : Role,
      r ∉ RoleHierarchy.closureFrom r ∧
      RoleHierarchy.expandOnce (RoleHierarchy.closureFrom r) =
        RoleHierarchy.closureFrom r := by
  decide

/-- Claim C10: `has_permission` is antisymmetric on the catalog. -/
theorem has_permission_antisymm :
    ∀ a b : Role,
      RoleHierarchy.has_permission a b = true →
      RoleHierarchy.has_permission b a = true →
      a = b := by
  decide

/-- Witness for C10 at the pair (USER, USER). -/
theorem has_permission_antisymm_witness : Role.USER = Role.USER :=
  has_permission_antisymm Role.USER Role.USER (by decide) (by decide)

/-- Claim C3: for an active caller, the gate produced by `require_role R`
returns the caller record unchanged when `has_permission(caller.role, R)`
holds, and otherwise signals HTTP 403 with the detail string that names
the required role `R` (its title-cased token). -/
theorem require_role_spec (R : Role) (u : User) (hact : u.is_active = true) :
    (RoleHierarchy.has_permission u.role R = true →
      role_checker R u = Except.ok u) ∧
    (RoleHierarchy.has_permission u.role R = false →
      role_checker R u =
        Except.error (GateError.httpError 403 (insufficientRoleDetail R))) := by
  constructor <;> intro h <;>
    simp [role_checker, get_current_active_user, hact, h, Except.bind]

/-- Witness for C3: an active USER caller against a `require_role ADMIN`
gate is denied with the 403 naming ADMIN. -/
theorem require_role_spec_witness :
    role_checker Role.ADMIN (User.mk Role.USER true false) =
      Except.error (GateError.httpError 403 (insufficientRoleDetail Role.ADMIN)) :=
  (require_role_spec Role.ADMIN (User.mk Role.USER true false) rfl).2 (by decide)

/-- Claim C6: the RBAC functions are total — a role whose lookup in the
hierarchy mapping misses (or whose entry is the empty set) gets the empty
inherited set, has no permissions beyond itself, and `has_permission`
degenerates to the reflexivity check; no error value exists anywhere. -/
theorem rbac_total_default (r : Role)
    (h : List.lookup r RoleHierarchy.HIERARCHY = none ∨
         RoleHierarchy.get_inherited_roles r = ∅) :
    RoleHierarchy.get_inherited_roles r = ∅ ∧
    RoleHierarchy.get_all_permissions r = {r} ∧
    ∀ q : Role, RoleHierarchy.has_permission r q = decide (r = q) := by
  revert r
  decide

/-- Witness for C6 at USER, whose declared inherited set is empty. -/
theorem rbac_total_default_witness :
    RoleHierarchy.get_inherited_roles Role.USER = ∅ ∧
    RoleHierarchy.get_all_permissions Role.USER = {Role.USER} ∧
    ∀ q : Role, RoleHierarchy.has_permission Role.USER q = decide (Role.USER = q) :=
  rbac_total_default Role.USER (Or.inr (by decide))

/-- Claim C8: every role round-trips through its string value, and that
value is a fixed lowercase token. -/
theorem role_value_roundtrip :
    ∀ r : Role,
      Role.ofValue (Role.value r) = some r ∧
      (Role.value r).data.map Char.toLower = (Role.value r).data := by
  decide

/-- Claim C9: for active callers with a role assigned, the allow/deny
outcome of a `require_role R` gate depends only on the pair
(caller.role, R): callers agreeing on role and is_active but differing in
the legacy is_superuser flag get the same decision. -/
theorem gate_ignores_superuser_flag (R : Role) (u₁ u₂ : User)
    (hrole : u₁.role = u₂.role) (hact : u₁.is_active = u₂.is_active) :
    decision (role_checker R u₁) = decision (role_checker R u₂) := by
  obtain ⟨r₁, a₁, s₁⟩ := u₁
  obtain ⟨r₂, a₂, s₂⟩ := u₂
  simp only at hrole hact
  subst hrole hact
  cases a₁ <;>
    cases h : RoleHierarchy.has_permission r₁ R <;>
      simp [role_checker, get_current_active_user, decision, Except.bind, h]

/-- Witness for C9: two active USER callers differing only in is_superuser
get the same decision from the `require_role ADMIN` gate. -/
theorem gate_ignores_superuser_flag_witness :
    decision (role_checker Role.ADMIN (User.mk Role.USER true false)) =
      decision (role_checker Role.ADMIN (User.mk Role.USER true true)) :=
  gate_ignores_superuser_flag Role.ADMIN
    (User.mk Role.USER true false) (User.mk Role.USER true true) rfl rfl
